import Mathlib

/-!
Verification of the backend service in `backend/server.js`: the signup and
login handlers over the user store, the `/chat` proxy to the Ollama runtime
with its error mapping, the `/chat` method guard, and the `/health/ollama`
reporter.  Each Express handler becomes a pure Lean function; the outcomes of
the downstream HTTP calls (`axios.get /api/tags`, `axios.post /api/generate`)
and of the Mongo store operation are passed in as explicit arguments, so a
handler is a total function from its request and the downstream behaviour to
the HTTP response it sends.
-/

namespace ChatApp

/-- JavaScript truthiness of a possibly-missing string field: `undefined`
(`none`) and the empty string are falsy, every other string is truthy.
Mirrors guards like `if (!userMessage)` in `server.js`. -/
def jsTruthy : Option String → Bool
  | none => false
  | some s => !(s == "")

/-- JavaScript `v || d` on a possibly-missing string: the default is taken when
`v` is `undefined` or the empty string.  Mirrors
`ollamaResponse.data.response || placeholder`. -/
def jsOrStr (v : Option String) (d : String) : String :=
  match v with
  | none => d
  | some s => if s == "" then d else s

/-- The fixed model identifier hard-coded in `server.js`. -/
def requiredModel : String := "llama3.2:1b-instruct-q4_K_M"

/-- A resolved (2xx by default) response of the `axios.post /api/generate`
call: HTTP status and the optional `data.response` content field. -/
structure GenSuccess where
  status : Nat
  response : Option String
deriving DecidableEq, Repr

/-- A rejected `axios` call: the error `code` (`ECONNREFUSED`, `ENOTFOUND`,
`ECONNABORTED`, ...), the HTTP status of `err.response` when a response was
received, and the error message. -/
structure GenError where
  code : Option String
  responseStatus : Option Nat
  message : String
deriving DecidableEq, Repr

/-- Outcome of the downstream generation call. -/
inductive GenOutcome where
  | ok (s : GenSuccess)
  | err (e : GenError)
deriving DecidableEq, Repr

/-- One entry of the `models` array returned by `GET /api/tags`. -/
structure ModelEntry where
  name : String
deriving DecidableEq, Repr

/-- Body of a resolved `GET /api/tags` call: `data.models` may be absent. -/
structure TagsData where
  models : Option (List ModelEntry)
deriving DecidableEq, Repr

/-- Outcome of a `GET /api/tags` call: data, or the error message of the
rejection. -/
inductive TagsOutcome where
  | ok (d : TagsData)
  | err (msg : String)
deriving DecidableEq, Repr

/-- JSON body sent by the `/chat` route: either `{reply}` or `{error}`. -/
inductive ChatBody where
  | reply (r : String)
  | error (e : String)
deriving DecidableEq, Repr

/-- HTTP response of the `/chat` POST handler. -/
structure ChatResp where
  status : Nat
  body : ChatBody
deriving DecidableEq, Repr

/-- The placeholder substituted when the downstream reply field is falsy. -/
def noResponsePlaceholder : String := "No response from AI model."

/-- Result of one execution of the `/chat` POST handler: the response sent,
and whether each downstream call was attempted. -/
structure ChatExec where
  resp : ChatResp
  tagsCalled : Bool
  generateCalled : Bool
deriving DecidableEq, Repr

/-- The `/chat` POST handler (`app.post /chat` in `server.js`).
Validates the message, then makes the preliminary `/api/tags` call (whose
failure is caught and only logged), then the `/api/generate` call, mapping
its outcome to an HTTP response exactly as the `try`/`catch` does. -/
def chatPost (message : Option String) (tags : TagsOutcome) (gen : GenOutcome) :
    ChatExec :=
  if !(jsTruthy message) then
    { resp := ⟨400, .error "No message provided."⟩
      tagsCalled := false, generateCalled := false }
  else
    -- the tags pre-check: its outcome is swallowed by the inner try/catch
    let _ := tags
    let resp : ChatResp :=
      match gen with
      | .ok s =>
        if s.status ≠ 200 then ⟨500, .error "Ollama API error."⟩
        else ⟨200, .reply (jsOrStr s.response noResponsePlaceholder)⟩
      | .err e =>
        if e.code == some "ECONNREFUSED" then
          ⟨503, .error "Cannot connect to Ollama service. Please ensure Ollama is running."⟩
        else if e.responseStatus == some 404 then
          ⟨404, .error "The specified AI model is not available. Please check if llama3.2:1b-instruct-q4_K_M is installed."⟩
        else if e.code == some "ENOTFOUND" then
          ⟨503, .error "Ollama service not found. Please check your network configuration."⟩
        else
          ⟨500, .error ("Failed to get response from Ollama: " ++ e.message)⟩
    { resp := resp, tagsCalled := true, generateCalled := true }

/-- Response of the `/chat` route as a whole: status, body, and the optional
`Allow` header set by the 405 handler. -/
structure RouteResp where
  status : Nat
  body : ChatBody
  allow : Option String
deriving DecidableEq, Repr

/-- The `/chat` route: `app.post /chat` answers POST requests; every other
verb falls through to `app.all /chat`, which replies 405 with
`Allow: POST`. -/
def chatRoute (method : String) (message : Option String)
    (tags : TagsOutcome) (gen : GenOutcome) : RouteResp :=
  if method == "POST" then
    let r := (chatPost message tags gen).resp
    ⟨r.status, r.body, none⟩
  else
    ⟨405, .error "Method Not Allowed. Only POST is supported on this endpoint.",
      some "POST"⟩

/-- Response of `GET /health/ollama`, with each JSON field of the two possible
bodies; fields absent from a body are `none`. -/
structure HealthResp where
  httpStatus : Nat
  status : String
  modelsAvailable : Option Nat
  requiredModelAvailable : Option Bool
  models : Option (List String)
  error : Option String
deriving DecidableEq, Repr

/-- The `/health/ollama` handler (`app.get /health/ollama`): on a resolved
tags call it answers 200 `healthy` with the model census (`data.models || []`);
on any rejection the `catch` answers 503 `unhealthy` with the error message. -/
def healthOllama (r : TagsOutcome) : HealthResp :=
  match r with
  | .ok d =>
    let models := d.models.getD []
    { httpStatus := 200, status := "healthy"
      modelsAvailable := some models.length
      requiredModelAvailable := some (models.any fun m => m.name == requiredModel)
      models := some (models.map fun m => m.name)
      error := none }
  | .err msg =>
    { httpStatus := 503, status := "unhealthy"
      modelsAvailable := none, requiredModelAvailable := none, models := none
      error := some msg }

/-- A persisted user record (`userSchema` in `server.js`). -/
structure UserRec where
  id : Nat
  username : String
  email : String
  passwordHash : String
  phone : Option String
deriving DecidableEq, Repr

/-- `User.findOne({$or: [{username: q}, {email: q}]})`: the first stored record
whose username or email equals the query. -/
def findUser (store : List UserRec) (q : String) : Option UserRec :=
  store.find? fun u => u.username == q || u.email == q

/-- JSON body sent by `/login`: the success fields, or `{error}`. -/
inductive LoginBody where
  | ok (userId : Nat) (username : String) (email : String) (phone : Option String)
  | error (e : String)
deriving DecidableEq, Repr

/-- HTTP response of the `/login` handler. -/
structure LoginResp where
  status : Nat
  body : LoginBody
deriving DecidableEq, Repr

/-- The `/login` handler (`app.post /login`).  `verify p h` stands for
`await bcrypt.compare(p, h)`. -/
def login (verify : String → String → Bool) (store : List UserRec)
    (usernameOrEmail password : Option String) : LoginResp :=
  if !(jsTruthy usernameOrEmail) || !(jsTruthy password) then
    ⟨400, .error "Missing fields"⟩
  else
    match findUser store (usernameOrEmail.getD "") with
    | some u =>
      if verify (password.getD "") u.passwordHash then
        ⟨200, .ok u.id u.username u.email u.phone⟩
      else ⟨401, .error "Invalid credentials"⟩
    | none => ⟨401, .error "Invalid credentials"⟩

/-- JSON body sent by `/signup`: `{message, userId}`, or `{error}`. -/
inductive SignupBody where
  | created (userId : Nat)
  | error (e : String)
deriving DecidableEq, Repr

/-- HTTP response of the `/signup` handler. -/
structure SignupResp where
  status : Nat
  body : SignupBody
deriving DecidableEq, Repr

/-- `User.create(...)` against the Mongo store with unique indexes on
`username` and `email`: rejects (atomically, writing nothing) on a duplicate
of either field or when the store rejects for any other reason
(`storeReject`); otherwise appends the record under a fresh identifier. -/
def createUser (store : List UserRec) (storeReject : Bool)
    (username email passwordHash : String) (phone : Option String) :
    Except Unit (List UserRec × Nat) :=
  if storeReject || store.any (fun u => u.username == username || u.email == email) then
    .error ()
  else
    let id := store.length
    .ok (store ++ [⟨id, username, email, passwordHash, phone⟩], id)

/-- The `/signup` handler (`app.post /signup`): validates the fields,
hashes the password (`hash` stands for `bcrypt.hash(password, 10)`), attempts
the insert, and maps any store rejection to one coarse 400 error.  Returns the
response together with the store after the request. -/
def signup (hash : String → String) (storeReject : Bool) (store : List UserRec)
    (username email password phone : Option String) :
    SignupResp × List UserRec :=
  if !(jsTruthy username) || !(jsTruthy email) || !(jsTruthy password) then
    (⟨400, .error "Missing fields"⟩, store)
  else
    match createUser store storeReject (username.getD "") (email.getD "")
        (hash (password.getD "")) phone with
    | .ok (store2, id) => (⟨201, .created id⟩, store2)
    | .error _ => (⟨400, .error "User already exists or invalid data"⟩, store)

/-- Whole-server state threaded through requests: the user store is the only
mutable state; `/chat` neither reads nor writes it. -/
structure ServerState where
  users : List UserRec
deriving DecidableEq, Repr

/-- One `/chat` request as a step on the server state: it produces its
response and leaves the state untouched. -/
def chatStep (st : ServerState) (message : Option String)
    (tags : TagsOutcome) (gen : GenOutcome) : ChatResp × ServerState :=
  ((chatPost message tags gen).resp, st)

/-! ## Theorems -/

/-- Claim C6: a `/chat` POST whose message is missing or empty is answered
400 with the validation error, and neither the tags pre-check nor the
generation call is attempted, whatever the downstream would have done. -/
theorem chat_missing_message_short_circuit
    (message : Option String) (tags : TagsOutcome) (gen : GenOutcome)
    (h : jsTruthy message = false) :
    chatPost message tags gen =
      { resp := ⟨400, .error "No message provided."⟩
        tagsCalled := false, generateCalled := false } := by
  simp [chatPost, h]

/-- Witness for C6: the concrete requests `{}` and `{message: ""}` are both
rejected without any downstream call. -/
theorem chat_missing_message_short_circuit_witness :
    jsTruthy none = false ∧ jsTruthy (some "") = false ∧
    chatPost none (.err "boom") (.err ⟨some "ECONNREFUSED", none, "refused"⟩) =
      { resp := ⟨400, .error "No message provided."⟩
        tagsCalled := false, generateCalled := false } ∧
    chatPost (some "") (.ok ⟨none⟩) (.ok ⟨200, some "hello"⟩) =
      { resp := ⟨400, .error "No message provided."⟩
        tagsCalled := false, generateCalled := false } :=
  ⟨rfl, rfl,
    chat_missing_message_short_circuit none (.err "boom")
      (.err ⟨some "ECONNREFUSED", none, "refused"⟩) rfl,
    chat_missing_message_short_circuit (some "") (.ok ⟨none⟩)
      (.ok ⟨200, some "hello"⟩) rfl⟩

/-- The `/chat` POST handler never answers 405: its possible statuses are
400, 200, 404, 500 and 503. -/
theorem chatPost_status_ne_405 (m : Option String) (t : TagsOutcome)
    (g : GenOutcome) : (chatPost m t g).resp.status ≠ 405 := by
  unfold chatPost
  by_cases hm : jsTruthy m
  · simp only [hm, Bool.not_true, Bool.false_eq_true, if_false]
    cases g with
    | ok s =>
      by_cases hs : s.status = 200
      · simp [hs]
      · simp [hs]
    | err e =>
      by_cases h1 : e.code == some "ECONNREFUSED"
      · simp [h1]
      · by_cases h2 : e.responseStatus == some 404
        · simp [h1, h2]
        · by_cases h3 : e.code == some "ENOTFOUND"
          · simp [h1, h2, h3]
          · simp [h1, h2, h3]
  · simp [hm]

/-- Claim C7: on the `/chat` route, every verb other than POST gets 405 with
an `Allow: POST` header, independent of payload and downstream behaviour,
while a POST never gets the 405 response (and no `Allow` header). -/
theorem chat_route_method_guard
    (method : String) (message : Option String) (tags : TagsOutcome)
    (gen : GenOutcome) :
    (method ≠ "POST" →
      chatRoute method message tags gen =
        ⟨405, .error "Method Not Allowed. Only POST is supported on this endpoint.",
          some "POST"⟩) ∧
    (method = "POST" →
      (chatRoute method message tags gen).status ≠ 405 ∧
      (chatRoute method message tags gen).allow = none) := by
  constructor
  · intro h
    simp [chatRoute, h]
  · intro h
    subst h
    refine ⟨?_, by simp [chatRoute]⟩
    simpa [chatRoute] using chatPost_status_ne_405 message tags gen

/-- Witness for C7: a concrete GET gets 405 with `Allow: POST`; a concrete
POST does not. -/
theorem chat_route_method_guard_witness :
    ("GET" : String) ≠ "POST" ∧
    chatRoute "GET" (some "hi") (.ok ⟨none⟩) (.ok ⟨200, some "hello"⟩) =
      ⟨405, .error "Method Not Allowed. Only POST is supported on this endpoint.",
        some "POST"⟩ ∧
    (chatRoute "POST" (some "hi") (.ok ⟨none⟩) (.ok ⟨200, some "hello"⟩)).status ≠ 405 :=
  ⟨by decide,
    (chat_route_method_guard "GET" (some "hi") (.ok ⟨none⟩)
      (.ok ⟨200, some "hello"⟩)).1 (by decide),
    ((chat_route_method_guard "POST" (some "hi") (.ok ⟨none⟩)
      (.ok ⟨200, some "hello"⟩)).2 rfl).1⟩

/-- Claim C10: the outcome of the preliminary `/api/tags` pre-check never
influences the `/chat` response: two executions with the same message and the
same generate outcome, differing only in the pre-check outcome, send
identical responses (status and body), and generation is attempted in both. -/
theorem chat_tags_noninterference
    (message : Option String) (tags1 tags2 : TagsOutcome) (gen : GenOutcome) :
    (chatPost message tags1 gen).resp = (chatPost message tags2 gen).resp ∧
    (chatPost message tags1 gen).generateCalled =
      (chatPost message tags2 gen).generateCalled := by
  unfold chatPost
  by_cases hm : jsTruthy message <;> simp [hm]

/-- Claim C8: the error mapping of `/chat` is a deterministic function of the
failure cause, with no dependence on prior requests or server state: two
successive requests with the same message against a runtime failing with the
same cause get the same response, and the server state is unchanged. -/
theorem chat_error_mapping_deterministic
    (st : ServerState) (message : Option String) (tags1 tags2 : TagsOutcome)
    (e : GenError) :
    (chatStep st message tags1 (.err e)).1 =
      (chatStep (chatStep st message tags1 (.err e)).2 message tags2 (.err e)).1 ∧
    (chatStep st message tags1 (.err e)).2 = st := by
  refine ⟨?_, rfl⟩
  unfold chatStep chatPost
  by_cases hm : jsTruthy message <;> simp [hm]

/-- Counterexample to claim C1 as stated: with message `hi` and a successful
generation whose `data.response` field is the empty string, the handler does
NOT pass the empty reply through as-is — the `||` fallback substitutes the
placeholder, because the empty string is falsy in JavaScript. -/
theorem chat_empty_reply_cex :
    (chatPost (some "hi") (.ok ⟨none⟩) (.ok ⟨200, some ""⟩)).resp =
      ⟨200, .reply noResponsePlaceholder⟩ ∧
    (chatPost (some "hi") (.ok ⟨none⟩) (.ok ⟨200, some ""⟩)).resp ≠
      ⟨200, .reply ""⟩ :=
  ⟨rfl, by decide⟩

/-- Claim C1 as amended: on a successful generation call with HTTP status
200, the handler answers 200; a nonempty reply is passed through verbatim,
and the placeholder is substituted whenever the content field is absent or
empty (both are falsy under the `||` fallback). -/
theorem chat_success_reply (message : Option String) (tags : TagsOutcome)
    (s : GenSuccess) (hm : jsTruthy message = true) (hs : s.status = 200) :
    (∀ r : String, s.response = some r → r ≠ "" →
      (chatPost message tags (.ok s)).resp = ⟨200, .reply r⟩) ∧
    ((s.response = none ∨ s.response = some "") →
      (chatPost message tags (.ok s)).resp = ⟨200, .reply noResponsePlaceholder⟩) := by
  constructor
  · intro r hr hne
    simp [chatPost, hm, hs, jsOrStr, hr, hne]
  · rintro (hr | hr) <;> simp [chatPost, hm, hs, jsOrStr, hr]

/-- Witness for C1 (amended): a concrete nonempty reply is relayed verbatim,
and a concrete absent content field yields the placeholder. -/
theorem chat_success_reply_witness :
    jsTruthy (some "hi") = true ∧
    (chatPost (some "hi") (.ok ⟨none⟩) (.ok ⟨200, some "hello"⟩)).resp =
      ⟨200, .reply "hello"⟩ ∧
    (chatPost (some "hi") (.err "down") (.ok ⟨200, none⟩)).resp =
      ⟨200, .reply noResponsePlaceholder⟩ :=
  ⟨rfl,
    (chat_success_reply (some "hi") (.ok ⟨none⟩) ⟨200, some "hello"⟩ rfl rfl).1
      "hello" rfl (by decide),
    (chat_success_reply (some "hi") (.err "down") ⟨200, none⟩ rfl rfl).2
      (Or.inl rfl)⟩

/-- Claim C4: the `/chat` catch block maps a failed generation call by cause
to exactly one status: connection refused to 503; a downstream HTTP 404 to
404; DNS resolution failure to 503; and any other failure — timeouts
included — to 500 with the downstream message carried in the error body. -/
theorem chat_error_taxonomy (message : Option String) (tags : TagsOutcome)
    (e : GenError) (hm : jsTruthy message = true) :
    (e.code = some "ECONNREFUSED" →
      (chatPost message tags (.err e)).resp.status = 503) ∧
    (e.code ≠ some "ECONNREFUSED" → e.responseStatus = some 404 →
      (chatPost message tags (.err e)).resp.status = 404) ∧
    (e.code = some "ENOTFOUND" → e.responseStatus ≠ some 404 →
      (chatPost message tags (.err e)).resp.status = 503) ∧
    (e.code ≠ some "ECONNREFUSED" → e.code ≠ some "ENOTFOUND" →
      e.responseStatus ≠ some 404 →
      (chatPost message tags (.err e)).resp =
        ⟨500, .error ("Failed to get response from Ollama: " ++ e.message)⟩) := by
  refine ⟨fun h1 => ?_, fun h1 h2 => ?_, fun h1 h2 => ?_, fun h1 h2 h3 => ?_⟩
  · simp [chatPost, hm, h1]
  · simp [chatPost, hm, h1, h2]
  · have hne : e.code ≠ some "ECONNREFUSED" := by
      rw [h1]; intro hc
      exact (by decide : ("ENOTFOUND" : String) ≠ "ECONNREFUSED") (Option.some.inj hc)
    simp [chatPost, hm, hne, h2, h1]
  · simp [chatPost, hm, h1, h2, h3]

/-- Witness for C4: concrete errors of each cause — connection refused,
downstream 404, DNS failure, and a timeout — get 503, 404, 503 and 500. -/
theorem chat_error_taxonomy_witness :
    (chatPost (some "hi") (.ok ⟨none⟩)
      (.err ⟨some "ECONNREFUSED", none, "connect ECONNREFUSED"⟩)).resp.status = 503 ∧
    (chatPost (some "hi") (.ok ⟨none⟩)
      (.err ⟨some "ERR_BAD_REQUEST", some 404,
        "Request failed with status code 404"⟩)).resp.status = 404 ∧
    (chatPost (some "hi") (.ok ⟨none⟩)
      (.err ⟨some "ENOTFOUND", none, "getaddrinfo ENOTFOUND ollama"⟩)).resp.status = 503 ∧
    (chatPost (some "hi") (.ok ⟨none⟩)
      (.err ⟨some "ECONNABORTED", none, "timeout of 30000ms exceeded"⟩)).resp =
      ⟨500, .error ("Failed to get response from Ollama: " ++
        "timeout of 30000ms exceeded")⟩ :=
  ⟨(chat_error_taxonomy (some "hi") (.ok ⟨none⟩)
      ⟨some "ECONNREFUSED", none, "connect ECONNREFUSED"⟩ rfl).1 rfl,
    (chat_error_taxonomy (some "hi") (.ok ⟨none⟩)
      ⟨some "ERR_BAD_REQUEST", some 404, "Request failed with status code 404"⟩
      rfl).2.1 (by decide) rfl,
    (chat_error_taxonomy (some "hi") (.ok ⟨none⟩)
      ⟨some "ENOTFOUND", none, "getaddrinfo ENOTFOUND ollama"⟩ rfl).2.2.1
      rfl (by decide),
    (chat_error_taxonomy (some "hi") (.ok ⟨none⟩)
      ⟨some "ECONNABORTED", none, "timeout of 30000ms exceeded"⟩ rfl).2.2.2
      (by decide) (by decide) (by decide)⟩

/-- Claim C5: `/health/ollama` never lets a downstream failure escape: any
rejection of the model-listing call is answered 503 with status `unhealthy`
and the failure reason in the error field, and a resolved call is answered
200 with `required_model_available` true exactly when the required model
identifier is among the listed model names. -/
theorem health_ollama_total (r : TagsOutcome) :
    (∀ msg, r = .err msg →
      healthOllama r =
        { httpStatus := 503, status := "unhealthy", modelsAvailable := none
          requiredModelAvailable := none, models := none, error := some msg }) ∧
    (∀ d, r = .ok d →
      (healthOllama r).httpStatus = 200 ∧
      ((healthOllama r).requiredModelAvailable = some true ↔
        requiredModel ∈ (d.models.getD []).map fun m => m.name)) := by
  refine ⟨fun msg h => ?_, fun d h => ?_⟩
  · subst h; rfl
  · subst h
    refine ⟨rfl, ?_⟩
    simp [healthOllama, List.any_eq_true, List.mem_map]

/-- Witness for C5: a concrete refused connection yields the 503 unhealthy
body carrying the reason; a concrete listing containing the required model
yields 200 with the model reported available. -/
theorem health_ollama_total_witness :
    healthOllama (.err "connect ECONNREFUSED 127.0.0.1:11434") =
      { httpStatus := 503, status := "unhealthy", modelsAvailable := none
        requiredModelAvailable := none, models := none
        error := some "connect ECONNREFUSED 127.0.0.1:11434" } ∧
    (healthOllama (.ok ⟨some [⟨"llama3.2:1b-instruct-q4_K_M"⟩]⟩)).httpStatus = 200 ∧
    (healthOllama (.ok ⟨some [⟨"llama3.2:1b-instruct-q4_K_M"⟩]⟩)).requiredModelAvailable
      = some true :=
  ⟨(health_ollama_total (.err "connect ECONNREFUSED 127.0.0.1:11434")).1
      "connect ECONNREFUSED 127.0.0.1:11434" rfl,
    ((health_ollama_total (.ok ⟨some [⟨"llama3.2:1b-instruct-q4_K_M"⟩]⟩)).2
      ⟨some [⟨"llama3.2:1b-instruct-q4_K_M"⟩]⟩ rfl).1,
    ((health_ollama_total (.ok ⟨some [⟨"llama3.2:1b-instruct-q4_K_M"⟩]⟩)).2
      ⟨some [⟨"llama3.2:1b-instruct-q4_K_M"⟩]⟩ rfl).2.mpr (by decide)⟩

/-- Claim C9: when the model-listing call resolves but the required model is
absent — including when the `models` field is missing, treated as an empty
list — `/health/ollama` still answers 200 with status `healthy` and
`required_model_available` false: only reachability decides the status
code. -/
theorem health_model_missing_still_healthy (d : TagsData)
    (h : requiredModel ∉ (d.models.getD []).map fun m => m.name) :
    healthOllama (.ok d) =
      { httpStatus := 200, status := "healthy"
        modelsAvailable := some (d.models.getD []).length
        requiredModelAvailable := some false
        models := some ((d.models.getD []).map fun m => m.name)
        error := none } := by
  unfold healthOllama
  have hany : ((d.models.getD []).any fun m => m.name == requiredModel) = false := by
    rw [List.any_eq_false]
    intro m hm he
    exact h (List.mem_map.mpr ⟨m, hm, by simpa using he⟩)
  simp [hany]

/-- Witness for C9: a concrete resolved listing with no `models` field and a
concrete listing of one other model both get 200 `healthy` with
`required_model_available` false. -/
theorem health_model_missing_still_healthy_witness :
    (requiredModel ∉ ((none : Option (List ModelEntry)).getD []).map
      fun m => m.name) ∧
    healthOllama (.ok ⟨none⟩) =
      { httpStatus := 200, status := "healthy", modelsAvailable := some 0
        requiredModelAvailable := some false, models := some []
        error := none } ∧
    healthOllama (.ok ⟨some [⟨"mistral:7b"⟩]⟩) =
      { httpStatus := 200, status := "healthy", modelsAvailable := some 1
        requiredModelAvailable := some false, models := some ["mistral:7b"]
        error := none } :=
  ⟨by decide,
    health_model_missing_still_healthy ⟨none⟩ (by decide),
    health_model_missing_still_healthy ⟨some [⟨"mistral:7b"⟩]⟩ (by decide)⟩

/-- Claim C2: `/login` with non-empty fields looks up the record whose
username or email equals the query; on a hash match it answers 200 with
exactly the identifier, username, email and phone — the body has no hash
field — and on an unknown user or a hash mismatch it answers 401 with
literally the same error body in both cases. -/
theorem login_spec (verify : String → String → Bool) (store : List UserRec)
    (q p : String) (hq : q ≠ "") (hp : p ≠ "") :
    (∀ u, findUser store q = some u → u.username = q ∨ u.email = q) ∧
    (∀ u, findUser store q = some u → verify p u.passwordHash = true →
      login verify store (some q) (some p) =
        ⟨200, .ok u.id u.username u.email u.phone⟩) ∧
    (findUser store q = none →
      login verify store (some q) (some p) =
        ⟨401, .error "Invalid credentials"⟩) ∧
    (∀ u, findUser store q = some u → verify p u.passwordHash = false →
      login verify store (some q) (some p) =
        ⟨401, .error "Invalid credentials"⟩) := by
  have htq : jsTruthy (some q) = true := by simp [jsTruthy, hq]
  have htp : jsTruthy (some p) = true := by simp [jsTruthy, hp]
  refine ⟨fun u hu => ?_, fun u hu hv => ?_, fun hn => ?_, fun u hu hv => ?_⟩
  · unfold findUser at hu
    have hpred := List.find?_some hu
    simpa using hpred
  · simp [login, htq, htp, hu, hv]
  · simp [login, htq, htp, hn]
  · simp [login, htq, htp, hu, hv]

/-- Witness for C2: against a concrete one-user store, the right password
answers 200 with the profile fields, while an unknown user and a wrong
password get the identical 401 body. -/
theorem login_spec_witness :
    ("alice" : String) ≠ "" ∧ ("pw" : String) ≠ "" ∧
    login (fun p h => h == ("#" ++ p)) [⟨1, "alice", "a@x.com", "#pw", none⟩]
      (some "alice") (some "pw") = ⟨200, .ok 1 "alice" "a@x.com" none⟩ ∧
    login (fun p h => h == ("#" ++ p)) [⟨1, "alice", "a@x.com", "#pw", none⟩]
      (some "bob") (some "pw") = ⟨401, .error "Invalid credentials"⟩ ∧
    login (fun p h => h == ("#" ++ p)) [⟨1, "alice", "a@x.com", "#pw", none⟩]
      (some "alice") (some "wrong") = ⟨401, .error "Invalid credentials"⟩ :=
  ⟨by decide, by decide,
    (login_spec (fun p h => h == ("#" ++ p))
      [⟨1, "alice", "a@x.com", "#pw", none⟩] "alice" "pw"
      (by decide) (by decide)).2.1
      ⟨1, "alice", "a@x.com", "#pw", none⟩ rfl rfl,
    (login_spec (fun p h => h == ("#" ++ p))
      [⟨1, "alice", "a@x.com", "#pw", none⟩] "bob" "pw"
      (by decide) (by decide)).2.2.1 rfl,
    (login_spec (fun p h => h == ("#" ++ p))
      [⟨1, "alice", "a@x.com", "#pw", none⟩] "alice" "wrong"
      (by decide) (by decide)).2.2.2
      ⟨1, "alice", "a@x.com", "#pw", none⟩ rfl rfl⟩

/-- Claim C3: `/signup` with non-empty fields answers 201 carrying only the
new identifier when the store accepts the insert, and on a duplicate
username, a duplicate email, or any other store rejection it answers one
coarse 400 conflict body — the same in all three cases — leaving the store
unchanged. -/
theorem signup_spec (hash : String → String) (storeReject : Bool)
    (store : List UserRec) (username email password : String)
    (phone : Option String) (hu : username ≠ "") (he : email ≠ "")
    (hp : password ≠ "") :
    (storeReject = false →
      store.any (fun u => u.username == username || u.email == email) = false →
      signup hash storeReject store (some username) (some email) (some password)
          phone =
        (⟨201, .created store.length⟩,
          store ++ [⟨store.length, username, email, hash password, phone⟩])) ∧
    ((storeReject = true ∨
        store.any (fun u => u.username == username || u.email == email) = true) →
      signup hash storeReject store (some username) (some email) (some password)
          phone =
        (⟨400, .error "User already exists or invalid data"⟩, store)) := by
  have htu : jsTruthy (some username) = true := by simp [jsTruthy, hu]
  have hte : jsTruthy (some email) = true := by simp [jsTruthy, he]
  have htp : jsTruthy (some password) = true := by simp [jsTruthy, hp]
  constructor
  · intro hr hd
    simp [signup, htu, hte, htp, createUser, hr, hd]
  · rintro (hr | hd)
    · simp [signup, htu, hte, htp, createUser, hr]
    · simp [signup, htu, hte, htp, createUser, hd]

/-- Witness for C3: against a concrete one-user store, a fresh signup
answers 201 with the new identifier and appends exactly one record, while a
duplicate username gets the coarse 400 body with the store unchanged. -/
theorem signup_spec_witness :
    ("bob" : String) ≠ "" ∧ ("b@x.com" : String) ≠ "" ∧ ("pw2" : String) ≠ "" ∧
    signup (fun p => "#" ++ p) false [⟨0, "alice", "a@x.com", "#pw", none⟩]
      (some "bob") (some "b@x.com") (some "pw2") none =
      (⟨201, .created 1⟩,
        [⟨0, "alice", "a@x.com", "#pw", none⟩,
          ⟨1, "bob", "b@x.com", "#pw2", none⟩]) ∧
    signup (fun p => "#" ++ p) false [⟨0, "alice", "a@x.com", "#pw", none⟩]
      (some "alice") (some "c@x.com") (some "pw3") none =
      (⟨400, .error "User already exists or invalid data"⟩,
        [⟨0, "alice", "a@x.com", "#pw", none⟩]) :=
  ⟨by decide, by decide, by decide,
    (signup_spec (fun p => "#" ++ p) false
      [⟨0, "alice", "a@x.com", "#pw", none⟩] "bob" "b@x.com" "pw2" none
      (by decide) (by decide) (by decide)).1 rfl (by decide),
    (signup_spec (fun p => "#" ++ p) false
      [⟨0, "alice", "a@x.com", "#pw", none⟩] "alice" "c@x.com" "pw3" none
      (by decide) (by decide) (by decide)).2 (Or.inr (by decide))⟩

end ChatApp
